import Mathlib

/-!
Verification of the RevenueGuard statistical inference pipeline
(`revenueguard-server.js` and `analysis.js`) against its specification.

Modelling conventions, used uniformly below:

* An ISO-8601 UTC timestamp string is encoded as the number of seconds
  since the epoch (`timestamp : ℕ`).  Lexicographic comparison of ISO
  strings of the source coincides with numeric comparison of the
  encoding, and the `slice(0, 10)` calendar-day projection of the source
  coincides with integer division by 86400 (`dayOf`).
* JavaScript numbers are modelled as exact rationals `ℚ` (and as reals
  `ℝ` where the source applies `Math.sqrt` / `Math.exp`).  The purely
  cosmetic `parseFloat(x.toFixed(k))` display roundings of the source
  are not modelled: every theorem below is about the exact values that
  the source computes before rounding for display.
* The source's default `baselineEnd = '2026-02-10'` is day number 20494
  since the epoch, and the fixed dataset end `'2026-02-21T23:59:59Z'`
  used by `computeRecencyFactor` is second `20505 * 86400 + 86399`.
-/

/-- Invoice record (`invoices.json` entry): `timestamp` in seconds since
the epoch, the owning `service`, and the expected/billed amounts.  An
invoice is anomalous iff `amountBilled < amountExpected`. -/
structure Invoice where
  timestamp : ℕ
  service : String
  amountExpected : ℚ
  amountBilled : ℚ
deriving DecidableEq, Repr

/-- System-event record (`system_events.json` entry).  Only events with
`eventType = "deployment"` participate in attribution. -/
structure SystemEvent where
  timestamp : ℕ
  service : String
  eventType : String
  version : String
deriving DecidableEq, Repr

/-- Transaction record: only the timestamp and status are read by the
agent pipeline (`get_transaction_failures`). -/
structure TransactionRecord where
  timestamp : ℕ
  status : String
deriving DecidableEq, Repr

/-- Churn-event record: only the timestamp is read by the agent pipeline
(`get_churn_risk`). -/
structure ChurnRecord where
  timestamp : ℕ
deriving DecidableEq, Repr

/-- Calendar day of a timestamp: model of `timestamp.slice(0, 10)` for
the seconds-since-epoch encoding. -/
def dayOf (ts : ℕ) : ℕ := ts / 86400

/-- Day number of the source's default drift baseline boundary
`'2026-02-10'`. -/
def baselineEndDefault : ℕ := 20494

/-- Arithmetic mean of a list of rationals; `0` for empty input.  Model
of `mean` in `analysis.js` and of the inline
`length > 0 ? sum / length : 0` means of `computeDriftDetection`. -/
def mean (l : List ℚ) : ℚ := if l.length = 0 then 0 else l.sum / (l.length : ℚ)

/-- Optional service filter applied at the top of
`computeDriftDetection`. -/
def filterService (invoices : List Invoice) : Option String → List Invoice
  | none => invoices
  | some s => invoices.filter (fun i => decide (i.service = s))

/-- All calendar days present in an invoice list, sorted ascending:
model of `Object.keys(byDay).sort()`. -/
def daysOf (invoices : List Invoice) : List ℕ :=
  ((invoices.map (fun i => dayOf i.timestamp)).dedup).foldr insertAsc []
where
  /-- Insertion step of an ascending insertion sort on day numbers. -/
  insertAsc (x : ℕ) : List ℕ → List ℕ
    | [] => [x]
    | y :: ys => if x ≤ y then x :: y :: ys else y :: insertAsc x ys

/-- Number of invoices falling on day `d`: model of `byDay[day].total`. -/
def dayTotal (invoices : List Invoice) (d : ℕ) : ℕ :=
  (invoices.filter (fun i => decide (dayOf i.timestamp = d))).length

/-- Number of anomalous invoices on day `d`: model of
`byDay[day].anomalies`. -/
def dayAnomalies (invoices : List Invoice) (d : ℕ) : ℕ :=
  (invoices.filter (fun i =>
    decide (dayOf i.timestamp = d) && decide (i.amountBilled < i.amountExpected))).length

/-- Per-day anomaly rate `anomalies / total` of one calendar day. -/
def dayRate (invoices : List Invoice) (d : ℕ) : ℚ :=
  (dayAnomalies invoices d : ℚ) / (dayTotal invoices d : ℚ)

/-- Per-day anomaly rates of the days strictly before the baseline
boundary: model of the `baselineDays` array of `computeDriftDetection`. -/
def baselineRatesOf (invoices : List Invoice) (baselineEnd : ℕ) : List ℚ :=
  ((daysOf invoices).filter (fun d => decide (d < baselineEnd))).map (dayRate invoices)

/-- Per-day anomaly rates of the most recent 3 observed days (by sort
order of observed days): model of the `recentRates` array. -/
def recentRatesOf (invoices : List Invoice) : List ℚ :=
  ((daysOf invoices).drop ((daysOf invoices).length - 3)).map (dayRate invoices)

/-- Sample variance of the baseline daily rates, with the source's small
positive fallback `0.0001` when the baseline has at most one day. -/
def varianceOf (rates : List ℚ) : ℚ :=
  if 1 < rates.length then
    ((rates.map (fun r => (r - mean rates) ^ 2)).sum) / ((rates.length : ℚ) - 1)
  else 1 / 10000

/-- Significance tier of `computeDriftDetection`, expressed over the
variance and the rate difference `diff = currentRate - baselineRate`.
The source computes `stdDev = Math.sqrt(variance)`,
`zScore = stdDev > 0 ? diff / stdDev : 0` and classifies
`zScore > 3 → 'HIGH_SIGNAL'`, `zScore > 2 → 'MODERATE'`, else `'NOISE'`;
for `variance ≥ 0` those conditions are equivalent to the square-free
rational conditions used here (proved in `sigTier_matches_zscore`). -/
def sigTier (variance diff : ℚ) : String :=
  if 0 < variance ∧ 0 < diff ∧ 9 * variance < diff ^ 2 then "HIGH_SIGNAL"
  else if 0 < variance ∧ 0 < diff ∧ 4 * variance < diff ^ 2 then "MODERATE"
  else "NOISE"

/-- Rank of a significance tier in the order
`NOISE < MODERATE < HIGH_SIGNAL`. -/
def tierRank (tier : String) : ℕ :=
  if tier = "HIGH_SIGNAL" then 2 else if tier = "MODERATE" then 1 else 0

/-- One entry of the `dailyDrift` per-day history. -/
structure DailyDrift where
  date : ℕ
  anomalyRate : ℚ
  driftFactor : ℚ
deriving DecidableEq, Repr

/-- Result record of `computeDriftDetection`.  The source additionally
returns `stdDev` and `zScore`, which are `Math.sqrt`-derived from
`variance`; they are recovered here by the derived function `driftZ`. -/
structure DriftResult where
  baselineRate : ℚ
  currentRate : ℚ
  driftFactor : ℚ
  variance : ℚ
  statistical_significance : String
  spike : Bool
  threshold : ℚ
  dailyDrift : List DailyDrift
deriving DecidableEq, Repr

/-- Model of `computeDriftDetection(invoices, service, baselineEnd,
driftThreshold)`: groups invoices by day, compares the mean baseline
daily anomaly rate (days strictly before `baselineEnd`) with the mean
rate of the most recent 3 observed days, and guards the drift-factor
division by a zero baseline. -/
def computeDriftDetection (invoices : List Invoice) (service : Option String)
    (baselineEnd : ℕ) (driftThreshold : ℚ) : DriftResult :=
  let filtered := filterService invoices service
  let baseRates := baselineRatesOf filtered baselineEnd
  let baselineRate := mean baseRates
  let currentRate := mean (recentRatesOf filtered)
  let driftFactor := if 0 < baselineRate then currentRate / baselineRate else 0
  let variance := varianceOf baseRates
  { baselineRate := baselineRate
    currentRate := currentRate
    driftFactor := driftFactor
    variance := variance
    statistical_significance := sigTier variance (currentRate - baselineRate)
    spike := decide (driftThreshold < driftFactor)
    threshold := driftThreshold
    dailyDrift := (daysOf filtered).map (fun d =>
      { date := d
        anomalyRate := dayRate filtered d
        driftFactor := if 0 < baselineRate then dayRate filtered d / baselineRate else 0 }) }

/-- Model of `findSpikeStart(dailyDrift, threshold)`: first day (in
ascending date order) whose per-day drift factor strictly exceeds the
threshold. -/
def findSpikeStart (dailyDrift : List DailyDrift) (threshold : ℚ) : Option ℕ :=
  (dailyDrift.find? (fun d => decide (threshold < d.driftFactor))).map DailyDrift.date

/-- Classification branch of `computeConfidence` (source lines 364-368).
Note the source labels contain spaces, not underscores. -/
def classifyConfidence (c : ℚ) : String :=
  if 7 / 10 ≤ c then "STRONG CAUSAL LINK"
  else if 3 / 10 ≤ c then "MODERATE CORRELATION"
  else if 0 ≤ c then "WEAK SIGNAL"
  else "INVERSE CORRELATION"

/-- Result record of `computeConfidence`.  `rateBefore` and `rateAfter`
are kept as raw fractions (the source multiplies them by 100 and rounds
for display only). -/
structure ConfidenceResult where
  confidence : ℚ
  classification : String
  temporalScore : ℚ
  spikeStart : Option ℕ
  rateBefore : ℚ
  rateAfter : ℚ
deriving DecidableEq, Repr

/-- Model of `computeConfidence(invoices, service, deploymentDate)`:
temporal alignment of the detected spike onset with the deployment day,
combined with the before/after anomaly-rate delta, clamped to `[-1, 1]`.
The day difference `new Date(spikeStart) - new Date(deploymentDate.slice(0,10))`
of the source is the integer `spikeDay - dayOf deploymentTs`. -/
def computeConfidence (invoices : List Invoice) (service : String)
    (deploymentTs : ℕ) : ConfidenceResult :=
  let serviceInvoices := invoices.filter (fun i => decide (i.service = service))
  let drift := computeDriftDetection serviceInvoices none baselineEndDefault 3
  let spikeStart := findSpikeStart drift.dailyDrift 2
  let before := serviceInvoices.filter (fun i => decide (i.timestamp < deploymentTs))
  let after := serviceInvoices.filter (fun i => decide (deploymentTs ≤ i.timestamp))
  let anomaliesBefore :=
    (before.filter (fun i => decide (i.amountBilled < i.amountExpected))).length
  let anomaliesAfter :=
    (after.filter (fun i => decide (i.amountBilled < i.amountExpected))).length
  let rateBefore : ℚ := if 0 < before.length then (anomaliesBefore : ℚ) / (before.length : ℚ) else 0
  let rateAfter : ℚ := if 0 < after.length then (anomaliesAfter : ℚ) / (after.length : ℚ) else 0
  let temporalScore : ℚ :=
    match spikeStart with
    | none => 0
    | some sd =>
      let diffDays : ℤ := (sd : ℤ) - (dayOf deploymentTs : ℤ)
      if 0 ≤ diffDays ∧ diffDays ≤ 1 then 1
      else if 1 < diffDays ∧ diffDays ≤ 3 then 7 / 10
      else if diffDays < 0 then -(1 / 2)
      else 0
  let impactDelta := rateAfter - rateBefore
  let confidence := max (-1) (min 1 (temporalScore * (6 / 10) + min (impactDelta * 5) (4 / 10)))
  { confidence := confidence
    classification := classifyConfidence confidence
    temporalScore := temporalScore
    spikeStart := spikeStart
    rateBefore := rateBefore
    rateAfter := rateAfter }

/-- Culprit candidate produced by the Investigate step of
`/api/agent/analyze`: a deployment paired with its attribution
confidence. -/
structure Culprit where
  version : String
  timestamp : ℕ
  confidence : ℚ
  classification : String
  spikeStart : Option ℕ
deriving DecidableEq, Repr

/-- Decision produced by the Decide stage (`generate_decision`). -/
structure Decision where
  verdict : String
  recommended_actions : List String
  confidence : ℚ
deriving DecidableEq, Repr

/-- Model of `generate_decision(culprit, drift)`.  The source reads
`culprit?.confidence > 0.5` (false when `culprit` is `undefined`) and
`culprit?.confidence || 0` (which is `0` when `culprit` is absent and
the culprit's own confidence otherwise, since `x || 0 = x` for every
number `x` up to the sign of zero).  The `drift` argument is accepted
and ignored, exactly as in the source. -/
def generate_decision : Option Culprit → DriftResult → Decision
  | none, _ =>
    { verdict := "ANOMALY_DETECTED_UNCLEAR_CAUSE"
      recommended_actions :=
        ["Initiate cross-service telemetry audit", "Monitor transaction success rates"]
      confidence := 0 }
  | some c, _ =>
    if (1 : ℚ) / 2 < c.confidence then
      { verdict := "CAUSAL_LINK_CONFIRMED"
        recommended_actions :=
          ["Roll back " ++ c.version ++ " immediately", "Verify pricing lookup cache"]
        confidence := c.confidence }
    else
      { verdict := "ANOMALY_DETECTED_UNCLEAR_CAUSE"
        recommended_actions :=
          ["Initiate cross-service telemetry audit", "Monitor transaction success rates"]
        confidence := c.confidence }

/-- Forecast record returned by the agent tool `forecast_loss`. -/
structure Forecast where
  observed_loss : ℚ
  monthly_projection : ℚ
  annualized_risk : ℚ
  protected_arr : ℚ
deriving DecidableEq, Repr

/-- Model of the agent tool `forecast_loss(totalLoss)` (source lines
172-179): `monthly_projection = totalLoss * 1.4`,
`annualized_risk = totalLoss * 12 * 0.2`, `protected_arr = totalLoss * 8`. -/
def forecast_loss (totalLoss : ℚ) : Forecast :=
  { observed_loss := totalLoss
    monthly_projection := totalLoss * (14 / 10)
    annualized_risk := totalLoss * 12 * (2 / 10)
    protected_arr := totalLoss * 8 }

/-- Monthly projection of the `/api/financial-loss` endpoint (source
line 632): `monthlyLoss = totalLoss / 21 * 30`. -/
def financialLossMonthly (totalLoss : ℚ) : ℚ := totalLoss / 21 * 30

/-- Annualized projection of the `/api/financial-loss` endpoint (source
line 633): `annualizedLoss = totalLoss / 21 * 365`. -/
def financialLossAnnualized (totalLoss : ℚ) : ℚ := totalLoss / 21 * 365

/-- Model of the agent tool `get_deployment_history(service, events)`:
the deployment events of the target service, in input order. -/
def get_deployment_history (service : String) (events : List SystemEvent) :
    List SystemEvent :=
  events.filter (fun e => decide (e.service = service) && decide (e.eventType = "deployment"))

/-- Head of the stable descending-by-confidence sort used by the
Investigate step (`deploymentsWithConfidence.sort((a, b) =>
b.confidence - a.confidence)[0]`): the first list element attaining the
maximal confidence, `none` for the empty list. -/
def selectCulprit (l : List Culprit) : Option Culprit :=
  l.foldl (fun acc c =>
    match acc with
    | none => some c
    | some a => if a.confidence < c.confidence then some c else some a) none

/-- Culprit candidates of the Investigate step: each deployment of the
service scored by `computeConfidence`. -/
def culpritsOf (invoices : List Invoice) (events : List SystemEvent)
    (service : String) : List Culprit :=
  (get_deployment_history service events).map (fun dep =>
    let conf := computeConfidence invoices service dep.timestamp
    { version := dep.version
      timestamp := dep.timestamp
      confidence := conf.confidence
      classification := conf.classification
      spikeStart := conf.spikeStart })

/-- Selected culprit of the Investigate step (`null` when the service
has no deployment events). -/
def culpritOf (invoices : List Invoice) (events : List SystemEvent)
    (service : String) : Option Culprit :=
  selectCulprit (culpritsOf invoices events service)

/-- Post-spike membership test of the Correlate step.  The source
compares an ISO timestamp string against the `"YYYY-MM-DD"` spike-start
day string, which under the seconds encoding is `spikeDay * 86400 ≤ ts`;
a missing spike start (`null`) rejects every record. -/
def afterSpike : Option ℕ → ℕ → Bool
  | none, _ => false
  | some d, ts => decide (d * 86400 ≤ ts)

/-- Analytical content of the `/api/agent/analyze` report: every report
field that is computed from the input record collections alone.  The
`metadata` envelope (which also reads the system clock) is kept separate
in `AgentReport`. -/
structure CoreReport where
  verdict : String
  culprit : Option Culprit
  observed_loss : ℚ
  failed_transactions : ℕ
  churn_events : ℕ
  monthly_projection : ℚ
  arr_risk : ℚ
  protected_arr : ℚ
  confidence : ℚ
  recommended_actions : List String
  drift : DriftResult
deriving DecidableEq, Repr

/-- Model of the six-step orchestration of `POST /api/agent/analyze`
(Detect, Investigate, Correlate, Quantify, Decide, Explain), restricted
to the analytical fields of the produced report. -/
def analyzeCore (invoices : List Invoice) (events : List SystemEvent)
    (transactions : List TransactionRecord) (churn : List ChurnRecord)
    (service : String) : CoreReport :=
  let serviceInvoices := invoices.filter (fun i => decide (i.service = service))
  let drift := computeDriftDetection serviceInvoices none baselineEndDefault 3
  let spikeStart := findSpikeStart drift.dailyDrift 2
  let culprit := culpritOf invoices events service
  let failedTransactions :=
    (transactions.filter (fun t =>
      decide (t.status = "FAILED") && afterSpike spikeStart t.timestamp)).length
  let churnCount := (churn.filter (fun c => afterSpike spikeStart c.timestamp)).length
  let totalLoss :=
    ((serviceInvoices.filter (fun i => decide (i.amountBilled < i.amountExpected))).map
      (fun i => i.amountExpected - i.amountBilled)).sum
  let forecast := forecast_loss totalLoss
  let decision := generate_decision culprit drift
  { verdict := decision.verdict
    culprit := culprit
    observed_loss := totalLoss
    failed_transactions := failedTransactions
    churn_events := churnCount
    monthly_projection := forecast.monthly_projection
    arr_risk := forecast.annualized_risk
    protected_arr := forecast.protected_arr
    confidence := decision.confidence
    recommended_actions := decision.recommended_actions
    drift := drift }

/-- Full `/api/agent/analyze` report: the analytical core plus the
metadata envelope.  The source builds the envelope from two system-clock
reads (`Date.now()` for the id and `new Date().toISOString()` for the
timestamp); both reads are modelled by the explicit `now` parameter. -/
structure AgentReport where
  metadata_id : String
  metadata_timestamp : ℕ
  core : CoreReport
deriving DecidableEq, Repr

/-- Model of one invocation of `POST /api/agent/analyze` at system-clock
instant `now`. -/
def analyzeReport (now : ℕ) (invoices : List Invoice) (events : List SystemEvent)
    (transactions : List TransactionRecord) (churn : List ChurnRecord)
    (service : String) : AgentReport :=
  { metadata_id := "AGENT-ANALYTIC-" ++ toString now
    metadata_timestamp := now
    core := analyzeCore invoices events transactions churn service }

/-- Second of the fixed dataset end `'2026-02-21T23:59:59Z'` hard-coded
as `now` in `computeRecencyFactor`. -/
def datasetEndSeconds : ℕ := 20505 * 86400 + 86399

/-- Model of `computeRecencyFactor(deploymentTimestamp, 7).recencyFactor`:
`Math.exp(-daysSince / 7)` with
`daysSince = (datasetEnd - deploymentTimestamp) / 86400` (the source
divides milliseconds by `1000*60*60*24`; the seconds encoding divides by
86400). -/
noncomputable def computeRecencyFactor (deploymentTs : ℕ) : ℝ :=
  Real.exp (-(((datasetEndSeconds : ℝ) - (deploymentTs : ℝ)) / 86400) / 7)

/-- Accumulator step selecting the first event with the maximal
timestamp (the head of a stable descending-by-timestamp sort). -/
def pickLater (acc : Option SystemEvent) (e : SystemEvent) : Option SystemEvent :=
  match acc with
  | none => some e
  | some a => if a.timestamp < e.timestamp then some e else some a

/-- Most recent deployment event: head of the stable
descending-by-timestamp sort used by `computeRiskScore`
(`events.filter(deployment).sort((a, b) => b.timestamp - a.timestamp)[0]`),
i.e. the first deployment attaining the maximal timestamp. -/
def latestDeployment (events : List SystemEvent) : Option SystemEvent :=
  (events.filter (fun e => decide (e.eventType = "deployment"))).foldl pickLater none

/-- Overall anomaly fraction of an invoice list
(`anomalies.length / totalInvoices`, `0` for an empty list). -/
def anomalyRateOf (invoices : List Invoice) : ℚ :=
  if 0 < invoices.length then
    ((invoices.filter (fun i => decide (i.amountBilled < i.amountExpected))).length : ℚ) /
      (invoices.length : ℚ)
  else 0

/-- Overall loss ratio of an invoice list
(`(totalExpected - totalBilled) / totalExpected`, `0` when nothing was
expected). -/
def lossFracOf (invoices : List Invoice) : ℚ :=
  if 0 < (invoices.map (fun i => i.amountExpected)).sum then
    ((invoices.map (fun i => i.amountExpected)).sum -
      (invoices.map (fun i => i.amountBilled)).sum) /
      (invoices.map (fun i => i.amountExpected)).sum
  else 0

/-- Recency factor of the most recent deployment, `0` when there is no
deployment (the source's `{ recencyFactor: 0 }` fallback). -/
noncomputable def recencyOf (events : List SystemEvent) : ℝ :=
  match latestDeployment events with
  | some e => computeRecencyFactor e.timestamp
  | none => 0

/-- Result record of `computeRiskScore`, flattening the `components` map
of the source: for each component its normalized value and weight
(`contribution = normalized × weight` is recoverable from these). -/
structure RiskScore where
  score : ℝ
  category : String
  anomalyRateNorm : ℚ
  lossNorm : ℚ
  recencyFactor : ℝ
  anomalyWeight : ℝ
  financialWeight : ℝ
  recencyWeight : ℝ

/-- Model of `computeRiskScore(invoices, events)`: normalized anomaly
rate (`min(rate × 2, 1)`), normalized loss ratio (`min(ratio × 10, 1)`)
and exponential deployment recency, combined with weights
`0.4 / 0.35 / 0.25`. -/
noncomputable def computeRiskScore (invoices : List Invoice)
    (events : List SystemEvent) : RiskScore :=
  let anomalyRateNorm : ℚ := min (anomalyRateOf invoices * 2) 1
  let lossNorm : ℚ := min (lossFracOf invoices * 10) 1
  let recencyFactor : ℝ := recencyOf events
  let score : ℝ :=
    (anomalyRateNorm : ℝ) * 0.4 + (lossNorm : ℝ) * 0.35 + recencyFactor * 0.25
  { score := score
    category :=
      if 0.8 < score then "CRITICAL"
      else if 0.6 < score then "HIGH"
      else if 0.3 < score then "MEDIUM"
      else "LOW"
    anomalyRateNorm := anomalyRateNorm
    lossNorm := lossNorm
    recencyFactor := recencyFactor
    anomalyWeight := 0.4
    financialWeight := 0.35
    recencyWeight := 0.25 }

/-- Real z score determined by a variance and a rate difference:
`stdDev = Math.sqrt(variance)`, `z = stdDev > 0 ? diff / stdDev : 0`. -/
noncomputable def zVal (variance diff : ℚ) : ℝ :=
  if 0 < Real.sqrt (variance : ℝ) then (diff : ℝ) / Real.sqrt (variance : ℝ) else 0

/-- The `zScore` field of a drift result, recovered from `variance` and
the rate difference exactly as the source computes it. -/
noncomputable def driftZ (r : DriftResult) : ℝ :=
  zVal r.variance (r.currentRate - r.baselineRate)

/-- Sum of squared deviations of a list from a center `m`. -/
def sqSum (l : List ℚ) (m : ℚ) : ℚ := (l.map (fun v => (v - m) ^ 2)).sum

/-- Sum of squared deviations from the list's own mean: the
`arr.reduce((s, v) => s + (v - m) ** 2, 0)` accumulator of `stddev` in
`analysis.js`. -/
def sqDevSum (l : List ℚ) : ℚ := sqSum l (mean l)

/-- Model of `stddev` in `analysis.js`: unbiased (n−1 denominator)
sample standard deviation, `0` for fewer than 2 samples. -/
noncomputable def stddev (l : List ℚ) : ℝ :=
  if l.length < 2 then 0
  else Real.sqrt ((sqDevSum l / ((l.length : ℚ) - 1) : ℚ) : ℝ)

/-- The three accumulated sums of the `pearson` loop in `analysis.js`:
`(num, dx2, dy2)` over the zipped series, centered at `(mx, my)`. -/
def centeredSums (xs ys : List ℚ) (mx my : ℚ) : ℚ × ℚ × ℚ :=
  (xs.zip ys).foldl
    (fun acc p =>
      (acc.1 + (p.1 - mx) * (p.2 - my),
       acc.2.1 + (p.1 - mx) ^ 2,
       acc.2.2 + (p.2 - my) ^ 2)) (0, 0, 0)

open Classical

/-- Model of `pearson(xs, ys)` in `analysis.js`: correlation over the
overlapping prefix `n = min(len(xs), len(ys))`, `0` if `n < 3` or the
denominator `Math.sqrt(dx2 * dy2)` is zero. -/
noncomputable def pearson (xs ys : List ℚ) : ℝ :=
  if min xs.length ys.length < 3 then 0
  else
    let xt := xs.take (min xs.length ys.length)
    let yt := ys.take (min xs.length ys.length)
    let s := centeredSums xt yt (mean xt) (mean yt)
    if Real.sqrt ((s.2.1 * s.2.2 : ℚ) : ℝ) = 0 then 0
    else (s.1 : ℝ) / Real.sqrt ((s.2.1 * s.2.2 : ℚ) : ℝ)

/-- End index of the JavaScript slice `xs.slice(0, xs.length - lag)`:
for `lag ≤ len` this is `len - lag`; a negative second argument counts
from the end of the array, giving `2 * len - lag` (truncated at 0). -/
def sliceEnd (len lag : ℕ) : ℕ := if lag ≤ len then len - lag else 2 * len - lag

/-- Model of `laggedPearson(xs, ys, lag)` in `analysis.js`: correlates
`xs.slice(0, xs.length - lag)` against `ys.slice(lag)` ("xs leads ys by
lag days"). -/
noncomputable def laggedPearson (xs ys : List ℚ) (lag : ℕ) : ℝ :=
  pearson (xs.take (sliceEnd xs.length lag)) (ys.drop lag)

/-- Model of `classifyCorrelation(r)` in `analysis.js`: monotone bucket
of `|r|`. -/
noncomputable def classifyCorrelation (r : ℝ) : String :=
  if 7 / 10 ≤ |r| then "STRONG"
  else if 4 / 10 ≤ |r| then "MODERATE"
  else if 2 / 10 ≤ |r| then "WEAK"
  else "NEGLIGIBLE"

/-- Candidate correlation of `bestLagCorrelation` at a given lag:
`pearson(xs, ys)` at lag 0 and `laggedPearson(xs, ys, lag)` for positive
lags, exactly the candidates enumerated by the source's loop. -/
noncomputable def lagCandidate (xs ys : List ℚ) : ℕ → ℝ
  | 0 => pearson xs ys
  | n + 1 => laggedPearson xs ys (n + 1)

/-- Loop of `bestLagCorrelation`: starting from
`best = { lag: 0, r: pearson(xs, ys) }`, lags `1..maxLag` are examined
in ascending order and `best` is replaced only on a strictly larger
`|r|` (so ties keep the smaller lag). -/
noncomputable def bestLagAux (xs ys : List ℚ) : ℕ → ℕ × ℝ
  | 0 => (0, pearson xs ys)
  | n + 1 =>
    let b := bestLagAux xs ys n
    let r := laggedPearson xs ys (n + 1)
    if |b.2| < |r| then (n + 1, r) else b

/-- Result record of `bestLagCorrelation`. -/
structure LagCorrelation where
  lag : ℕ
  r : ℝ
  strength : String

/-- Model of `bestLagCorrelation(xs, ys, maxLag)` in `analysis.js`. -/
noncomputable def bestLagCorrelation (xs ys : List ℚ) (maxLag : ℕ) : LagCorrelation :=
  { lag := (bestLagAux xs ys maxLag).1
    r := (bestLagAux xs ys maxLag).2
    strength := classifyCorrelation (bestLagAux xs ys maxLag).2 }

/-- Example dataset A: one clean baseline day (day 0), two clean recent
days and one recent day with a 1/12 anomaly rate, giving a moderately
positive drift z score of 25/9. -/
def exampleInvoicesA : List Invoice :=
  [⟨0, "s", 10, 10⟩, ⟨86400, "s", 10, 10⟩, ⟨172800, "s", 10, 10⟩,
   ⟨259200, "s", 10, 5⟩] ++ List.replicate 11 ⟨259201, "s", 10, 10⟩

/-- Example dataset B: one fully anomalous baseline day (day 0), two
fully anomalous recent days and one recent day at rate 9/10, giving a
strongly negative drift z score of -10/3. -/
def exampleInvoicesB : List Invoice :=
  [⟨0, "s", 10, 5⟩, ⟨86400, "s", 10, 5⟩, ⟨172800, "s", 10, 5⟩,
   ⟨259200, "s", 10, 10⟩] ++ List.replicate 9 ⟨259201, "s", 10, 5⟩

/-- Example invoices for the agent pipeline: anomaly rate 1/2 before the
day-1 deployment and 3/5 after it, with no drift spike, so the
deployment's attribution confidence is 2/5. -/
def exampleAgentInvoices : List Invoice :=
  [⟨0, "s", 10, 5⟩, ⟨1, "s", 10, 10⟩,
   ⟨86400, "s", 10, 5⟩, ⟨86401, "s", 10, 5⟩, ⟨86402, "s", 10, 5⟩,
   ⟨86403, "s", 10, 10⟩, ⟨86404, "s", 10, 10⟩]

/-- Example events for the agent pipeline: a single deployment of
service `"s"` at the start of day 1. -/
def exampleAgentEvents : List SystemEvent :=
  [⟨86400, "s", "deployment", "v1"⟩]

/-! ## Basic facts about the drift detector -/

lemma mean_nonneg {l : List ℚ} (h : ∀ x ∈ l, 0 ≤ x) : 0 ≤ mean l := by
  unfold mean
  split
  · exact le_refl 0
  · exact div_nonneg (List.sum_nonneg h) (Nat.cast_nonneg _)

lemma dayRate_nonneg (invoices : List Invoice) (d : ℕ) : 0 ≤ dayRate invoices d :=
  div_nonneg (Nat.cast_nonneg _) (Nat.cast_nonneg _)

lemma baselineRatesOf_nonneg (invoices : List Invoice) (baselineEnd : ℕ) :
    ∀ x ∈ baselineRatesOf invoices baselineEnd, 0 ≤ x := by
  intro x hx
  obtain ⟨d, _, rfl⟩ := List.mem_map.mp hx
  exact dayRate_nonneg _ _

lemma recentRatesOf_nonneg (invoices : List Invoice) :
    ∀ x ∈ recentRatesOf invoices, 0 ≤ x := by
  intro x hx
  obtain ⟨d, _, rfl⟩ := List.mem_map.mp hx
  exact dayRate_nonneg _ _

lemma varianceOf_nonneg (rates : List ℚ) : 0 ≤ varianceOf rates := by
  unfold varianceOf
  split
  · refine div_nonneg (List.sum_nonneg ?_) ?_
    · intro x hx
      obtain ⟨r, _, rfl⟩ := List.mem_map.mp hx
      exact sq_nonneg _
    · have h1 : (1 : ℚ) < (rates.length : ℚ) := by exact_mod_cast ‹1 < rates.length›
      linarith
  · norm_num

lemma computeDriftDetection_baselineRate (invoices : List Invoice)
    (service : Option String) (baselineEnd : ℕ) (driftThreshold : ℚ) :
    (computeDriftDetection invoices service baselineEnd driftThreshold).baselineRate =
      mean (baselineRatesOf (filterService invoices service) baselineEnd) := rfl

lemma computeDriftDetection_currentRate (invoices : List Invoice)
    (service : Option String) (baselineEnd : ℕ) (driftThreshold : ℚ) :
    (computeDriftDetection invoices service baselineEnd driftThreshold).currentRate =
      mean (recentRatesOf (filterService invoices service)) := rfl

lemma computeDriftDetection_driftFactor (invoices : List Invoice)
    (service : Option String) (baselineEnd : ℕ) (driftThreshold : ℚ) :
    (computeDriftDetection invoices service baselineEnd driftThreshold).driftFactor =
      if 0 < (computeDriftDetection invoices service baselineEnd driftThreshold).baselineRate
      then (computeDriftDetection invoices service baselineEnd driftThreshold).currentRate /
        (computeDriftDetection invoices service baselineEnd driftThreshold).baselineRate
      else 0 := rfl

lemma computeDriftDetection_variance (invoices : List Invoice)
    (service : Option String) (baselineEnd : ℕ) (driftThreshold : ℚ) :
    (computeDriftDetection invoices service baselineEnd driftThreshold).variance =
      varianceOf (baselineRatesOf (filterService invoices service) baselineEnd) := rfl

lemma computeDriftDetection_sig (invoices : List Invoice)
    (service : Option String) (baselineEnd : ℕ) (driftThreshold : ℚ) :
    (computeDriftDetection invoices service baselineEnd driftThreshold).statistical_significance =
      sigTier (computeDriftDetection invoices service baselineEnd driftThreshold).variance
        ((computeDriftDetection invoices service baselineEnd driftThreshold).currentRate -
          (computeDriftDetection invoices service baselineEnd driftThreshold).baselineRate) := rfl

lemma computeDriftDetection_spike (invoices : List Invoice)
    (service : Option String) (baselineEnd : ℕ) (driftThreshold : ℚ) :
    (computeDriftDetection invoices service baselineEnd driftThreshold).spike =
      decide (driftThreshold <
        (computeDriftDetection invoices service baselineEnd driftThreshold).driftFactor) := rfl

/-- C6: for every invoice list, service filter, baseline boundary and
(non-negative, e.g. the default 3.0) spike threshold, the drift factor
equals `currentRate / baselineRate` exactly when the baseline rate is
positive and is `0` otherwise (the division is guarded); it is never
negative; and with zero baseline days the baseline rate is `0` and no
spike is declared. -/
theorem drift_factor_guarded (invoices : List Invoice) (service : Option String)
    (baselineEnd : ℕ) (driftThreshold : ℚ) (hthr : 0 ≤ driftThreshold) :
    (0 < (computeDriftDetection invoices service baselineEnd driftThreshold).baselineRate →
      (computeDriftDetection invoices service baselineEnd driftThreshold).driftFactor =
        (computeDriftDetection invoices service baselineEnd driftThreshold).currentRate /
          (computeDriftDetection invoices service baselineEnd driftThreshold).baselineRate) ∧
    ((computeDriftDetection invoices service baselineEnd driftThreshold).baselineRate = 0 →
      (computeDriftDetection invoices service baselineEnd driftThreshold).driftFactor = 0) ∧
    0 ≤ (computeDriftDetection invoices service baselineEnd driftThreshold).driftFactor ∧
    (baselineRatesOf (filterService invoices service) baselineEnd = [] →
      (computeDriftDetection invoices service baselineEnd driftThreshold).baselineRate = 0 ∧
        (computeDriftDetection invoices service baselineEnd driftThreshold).spike = false) := by
  refine ⟨?_, ?_, ?_, ?_⟩
  · intro h
    rw [computeDriftDetection_driftFactor, if_pos h]
  · intro h
    rw [computeDriftDetection_driftFactor, h]
    simp
  · rw [computeDriftDetection_driftFactor]
    split
    · exact div_nonneg
        (by rw [computeDriftDetection_currentRate]
            exact mean_nonneg (recentRatesOf_nonneg _))
        (le_of_lt ‹_›)
    · exact le_refl 0
  · intro h
    have hb : (computeDriftDetection invoices service baselineEnd driftThreshold).baselineRate = 0 := by
      rw [computeDriftDetection_baselineRate, h]
      simp [mean]
    refine ⟨hb, ?_⟩
    have hd : (computeDriftDetection invoices service baselineEnd driftThreshold).driftFactor = 0 := by
      rw [computeDriftDetection_driftFactor, hb]
      simp
    rw [computeDriftDetection_spike, hd]
    simp only [decide_eq_false_iff_not, not_lt]
    exact hthr

/-- Witness for C6: a one-invoice dataset with baseline boundary at day
0 has no baseline days, and indeed declares no spike. -/
theorem drift_factor_guarded_witness :
    (0 : ℚ) ≤ 3 ∧
    baselineRatesOf (filterService [⟨0, "s", 10, 5⟩] none) 0 = [] ∧
    (computeDriftDetection [⟨0, "s", 10, 5⟩] none 0 3).baselineRate = 0 ∧
    (computeDriftDetection [⟨0, "s", 10, 5⟩] none 0 3).spike = false :=
  ⟨by norm_num, by decide,
   ((drift_factor_guarded [⟨0, "s", 10, 5⟩] none 0 3 (by norm_num)).2.2.2 (by decide)).1,
   ((drift_factor_guarded [⟨0, "s", 10, 5⟩] none 0 3 (by norm_num)).2.2.2 (by decide)).2⟩

/-! ## Significance tier versus the real z score -/

/-- The square-free tier conditions of `sigTier` agree with the source's
comparisons of the real z score `diff / Math.sqrt(variance)` against 3
and 2 (for any non-negative variance). -/
lemma sigTier_matches_zscore (v d : ℚ) (hv : 0 ≤ v) :
    sigTier v d =
      if 3 < zVal v d then "HIGH_SIGNAL"
      else if 2 < zVal v d then "MODERATE"
      else "NOISE" := by
  rcases eq_or_lt_of_le hv with h0 | hpos
  · subst h0
    simp [sigTier, zVal, lt_irrefl]
    norm_num
  · have hvR : (0 : ℝ) < ((v : ℚ) : ℝ) := by exact_mod_cast hpos
    have hs : 0 < Real.sqrt ((v : ℚ) : ℝ) := Real.sqrt_pos.mpr hvR
    have hsq : Real.sqrt ((v : ℚ) : ℝ) ^ 2 = ((v : ℚ) : ℝ) := Real.sq_sqrt hvR.le
    have hz : zVal v d = ((d : ℚ) : ℝ) / Real.sqrt ((v : ℚ) : ℝ) := by
      unfold zVal
      rw [if_pos hs]
    have key : ∀ c k : ℚ, 0 < k → c = k ^ 2 →
        (((k : ℚ) : ℝ) < ((d : ℚ) : ℝ) / Real.sqrt ((v : ℚ) : ℝ) ↔
          (0 < d ∧ c * v < d ^ 2)) := by
      intro c k hk hc
      subst hc
      have hkR : (0 : ℝ) < ((k : ℚ) : ℝ) := by exact_mod_cast hk
      rw [lt_div_iff₀ hs]
      constructor
      · intro h
        have hdR : (0 : ℝ) < ((d : ℚ) : ℝ) := lt_trans (by positivity) h
        refine ⟨by exact_mod_cast hdR, ?_⟩
        have hR : ((k : ℚ) : ℝ) ^ 2 * ((v : ℚ) : ℝ) < ((d : ℚ) : ℝ) ^ 2 := by
          have hsq2 : (((k : ℚ) : ℝ) * Real.sqrt ((v : ℚ) : ℝ)) ^ 2 < ((d : ℚ) : ℝ) ^ 2 :=
            pow_lt_pow_left₀ h (by positivity) (by norm_num)
          calc ((k : ℚ) : ℝ) ^ 2 * ((v : ℚ) : ℝ)
              = (((k : ℚ) : ℝ) * Real.sqrt ((v : ℚ) : ℝ)) ^ 2 := by rw [mul_pow, hsq]
            _ < ((d : ℚ) : ℝ) ^ 2 := hsq2
        exact_mod_cast hR
      · rintro ⟨hd, hlt⟩
        have hdR : (0 : ℝ) < ((d : ℚ) : ℝ) := by exact_mod_cast hd
        have hltR : ((k : ℚ) : ℝ) ^ 2 * ((v : ℚ) : ℝ) < ((d : ℚ) : ℝ) ^ 2 := by
          exact_mod_cast hlt
        by_contra hcon
        push_neg at hcon
        have hle : ((d : ℚ) : ℝ) ^ 2 ≤ (((k : ℚ) : ℝ) * Real.sqrt ((v : ℚ) : ℝ)) ^ 2 :=
          pow_le_pow_left₀ hdR.le hcon 2
        rw [mul_pow, hsq] at hle
        linarith
    have h3 := key 9 3 (by norm_num) (by norm_num)
    have h2 := key 4 2 (by norm_num) (by norm_num)
    rw [show (((3 : ℚ) : ℝ)) = (3 : ℝ) by norm_num] at h3
    rw [show (((2 : ℚ) : ℝ)) = (2 : ℝ) by norm_num] at h2
    rw [hz]
    by_cases c3 : 0 < d ∧ 9 * v < d ^ 2
    · rw [if_pos (h3.mpr c3)]
      unfold sigTier
      rw [if_pos ⟨hpos, c3.1, c3.2⟩]
    · rw [if_neg (fun h => c3 (h3.mp h))]
      by_cases c2 : 0 < d ∧ 4 * v < d ^ 2
      · rw [if_pos (h2.mpr c2)]
        unfold sigTier
        rw [if_neg (fun h => c3 ⟨h.2.1, h.2.2⟩), if_pos ⟨hpos, c2.1, c2.2⟩]
      · rw [if_neg (fun h => c2 (h2.mp h))]
        unfold sigTier
        rw [if_neg (fun h => c3 ⟨h.2.1, h.2.2⟩), if_neg (fun h => c2 ⟨h.2.1, h.2.2⟩)]

lemma tierRank_sigTier (v d : ℚ) (hv : 0 ≤ v) :
    tierRank (sigTier v d) =
      if 3 < zVal v d then 2 else if 2 < zVal v d then 1 else 0 := by
  rw [sigTier_matches_zscore v d hv]
  split_ifs <;> rfl

lemma tierRank_mono_zVal (v1 d1 v2 d2 : ℚ) (hv1 : 0 ≤ v1) (hv2 : 0 ≤ v2)
    (hz : zVal v1 d1 ≤ zVal v2 d2) :
    tierRank (sigTier v1 d1) ≤ tierRank (sigTier v2 d2) := by
  rw [tierRank_sigTier _ _ hv1, tierRank_sigTier _ _ hv2]
  split_ifs
  all_goals try omega
  all_goals exfalso; linarith

/-- C7 (amended): the significance tier is monotonic in the signed
z score `(currentRate - baselineRate) / stdDev`: of two drift results,
the one with the larger z score never gets a lower tier.  (It is not
monotonic in `|z|`: see `tier_abs_z_counterexample`.) -/
theorem tier_monotone_in_z (inv1 inv2 : List Invoice) (s1 s2 : Option String)
    (b1 b2 : ℕ) (t1 t2 : ℚ)
    (hz : driftZ (computeDriftDetection inv1 s1 b1 t1) ≤
      driftZ (computeDriftDetection inv2 s2 b2 t2)) :
    tierRank ((computeDriftDetection inv1 s1 b1 t1).statistical_significance) ≤
      tierRank ((computeDriftDetection inv2 s2 b2 t2).statistical_significance) := by
  rw [computeDriftDetection_sig, computeDriftDetection_sig]
  apply tierRank_mono_zVal
  · rw [computeDriftDetection_variance]
    exact varianceOf_nonneg _
  · rw [computeDriftDetection_variance]
    exact varianceOf_nonneg _
  · exact hz

/-! ## Concrete evaluation of the drift detector on datasets A and B -/

lemma daysOf_exampleA : daysOf exampleInvoicesA = [0, 1, 2, 3] := by decide

lemma daysOf_exampleB : daysOf exampleInvoicesB = [0, 1, 2, 3] := by decide

lemma dayRate_exampleA_0 : dayRate exampleInvoicesA 0 = 0 := by
  simp only [dayRate]
  rw [show dayAnomalies exampleInvoicesA 0 = 0 from by decide,
    show dayTotal exampleInvoicesA 0 = 1 from by decide]
  norm_num

lemma dayRate_exampleA_1 : dayRate exampleInvoicesA 1 = 0 := by
  simp only [dayRate]
  rw [show dayAnomalies exampleInvoicesA 1 = 0 from by decide,
    show dayTotal exampleInvoicesA 1 = 1 from by decide]
  norm_num

lemma dayRate_exampleA_2 : dayRate exampleInvoicesA 2 = 0 := by
  simp only [dayRate]
  rw [show dayAnomalies exampleInvoicesA 2 = 0 from by decide,
    show dayTotal exampleInvoicesA 2 = 1 from by decide]
  norm_num

lemma dayRate_exampleA_3 : dayRate exampleInvoicesA 3 = 1 / 12 := by
  simp only [dayRate]
  rw [show dayAnomalies exampleInvoicesA 3 = 1 from by decide,
    show dayTotal exampleInvoicesA 3 = 12 from by decide]
  norm_num

lemma baselineRatesOf_exampleA : baselineRatesOf exampleInvoicesA 1 = [0] := by
  simp only [baselineRatesOf]
  rw [daysOf_exampleA]
  simp only [List.filter]
  norm_num [dayRate_exampleA_0]

lemma recentRatesOf_exampleA : recentRatesOf exampleInvoicesA = [0, 0, 1 / 12] := by
  simp only [recentRatesOf]
  rw [daysOf_exampleA]
  simp only [List.length, List.drop, List.map]
  rw [dayRate_exampleA_1, dayRate_exampleA_2, dayRate_exampleA_3]

lemma variance_exampleA :
    (computeDriftDetection exampleInvoicesA none 1 3).variance = 1 / 10000 := by
  rw [computeDriftDetection_variance,
    show filterService exampleInvoicesA none = exampleInvoicesA from rfl,
    baselineRatesOf_exampleA]
  simp [varianceOf]

lemma diff_exampleA :
    (computeDriftDetection exampleInvoicesA none 1 3).currentRate -
      (computeDriftDetection exampleInvoicesA none 1 3).baselineRate = 1 / 36 := by
  rw [computeDriftDetection_currentRate, computeDriftDetection_baselineRate,
    show filterService exampleInvoicesA none = exampleInvoicesA from rfl,
    baselineRatesOf_exampleA, recentRatesOf_exampleA]
  norm_num [mean]

lemma dayRate_exampleB_0 : dayRate exampleInvoicesB 0 = 1 := by
  simp only [dayRate]
  rw [show dayAnomalies exampleInvoicesB 0 = 1 from by decide,
    show dayTotal exampleInvoicesB 0 = 1 from by decide]
  norm_num

lemma dayRate_exampleB_1 : dayRate exampleInvoicesB 1 = 1 := by
  simp only [dayRate]
  rw [show dayAnomalies exampleInvoicesB 1 = 1 from by decide,
    show dayTotal exampleInvoicesB 1 = 1 from by decide]
  norm_num

lemma dayRate_exampleB_2 : dayRate exampleInvoicesB 2 = 1 := by
  simp only [dayRate]
  rw [show dayAnomalies exampleInvoicesB 2 = 1 from by decide,
    show dayTotal exampleInvoicesB 2 = 1 from by decide]
  norm_num

lemma dayRate_exampleB_3 : dayRate exampleInvoicesB 3 = 9 / 10 := by
  simp only [dayRate]
  rw [show dayAnomalies exampleInvoicesB 3 = 9 from by decide,
    show dayTotal exampleInvoicesB 3 = 10 from by decide]
  norm_num

lemma baselineRatesOf_exampleB : baselineRatesOf exampleInvoicesB 1 = [1] := by
  simp only [baselineRatesOf]
  rw [daysOf_exampleB]
  simp only [List.filter]
  norm_num [dayRate_exampleB_0]

lemma recentRatesOf_exampleB : recentRatesOf exampleInvoicesB = [1, 1, 9 / 10] := by
  simp only [recentRatesOf]
  rw [daysOf_exampleB]
  simp only [List.length, List.drop, List.map]
  rw [dayRate_exampleB_1, dayRate_exampleB_2, dayRate_exampleB_3]

lemma variance_exampleB :
    (computeDriftDetection exampleInvoicesB none 1 3).variance = 1 / 10000 := by
  rw [computeDriftDetection_variance,
    show filterService exampleInvoicesB none = exampleInvoicesB from rfl,
    baselineRatesOf_exampleB]
  simp [varianceOf]

lemma diff_exampleB :
    (computeDriftDetection exampleInvoicesB none 1 3).currentRate -
      (computeDriftDetection exampleInvoicesB none 1 3).baselineRate = -(1 / 30) := by
  rw [computeDriftDetection_currentRate, computeDriftDetection_baselineRate,
    show filterService exampleInvoicesB none = exampleInvoicesB from rfl,
    baselineRatesOf_exampleB, recentRatesOf_exampleB]
  norm_num [mean]

lemma sqrt_one_div_10000 : Real.sqrt (((1 : ℚ) / 10000 : ℚ) : ℝ) = 1 / 100 := by
  have h : (((1 : ℚ) / 10000 : ℚ) : ℝ) = (1 / 100 : ℝ) ^ 2 := by norm_num
  rw [h, Real.sqrt_sq (by norm_num)]

lemma zVal_one_div_10000 (d : ℚ) : zVal (1 / 10000) d = ((d : ℚ) : ℝ) * 100 := by
  unfold zVal
  rw [sqrt_one_div_10000, if_pos (by norm_num)]
  ring

lemma driftZ_exampleA : driftZ (computeDriftDetection exampleInvoicesA none 1 3) = 25 / 9 := by
  unfold driftZ
  rw [variance_exampleA, diff_exampleA, zVal_one_div_10000]
  norm_num

lemma driftZ_exampleB : driftZ (computeDriftDetection exampleInvoicesB none 1 3) = -(10 / 3) := by
  unfold driftZ
  rw [variance_exampleB, diff_exampleB, zVal_one_div_10000]
  norm_num

lemma sig_exampleA :
    (computeDriftDetection exampleInvoicesA none 1 3).statistical_significance =
      "MODERATE" := by
  rw [computeDriftDetection_sig, variance_exampleA, diff_exampleA]
  unfold sigTier
  norm_num

lemma sig_exampleB :
    (computeDriftDetection exampleInvoicesB none 1 3).statistical_significance =
      "NOISE" := by
  rw [computeDriftDetection_sig, variance_exampleB, diff_exampleB]
  unfold sigTier
  norm_num

/-- Counterexample for C7 as stated: dataset B has the strictly larger
absolute z score (10/3 against 25/9) yet receives the strictly lower
tier (`NOISE` against `MODERATE`), because the source classifies the
signed z score, not `|z|`. -/
theorem tier_abs_z_counterexample :
    |driftZ (computeDriftDetection exampleInvoicesB none 1 3)| >
      |driftZ (computeDriftDetection exampleInvoicesA none 1 3)| ∧
    tierRank ((computeDriftDetection exampleInvoicesB none 1 3).statistical_significance) <
      tierRank ((computeDriftDetection exampleInvoicesA none 1 3).statistical_significance) := by
  constructor
  · rw [driftZ_exampleA, driftZ_exampleB]
    rw [abs_of_neg (by norm_num), abs_of_pos (by norm_num)]
    norm_num
  · rw [sig_exampleA, sig_exampleB]
    decide

/-- Witness for the amended C7 at the two concrete datasets: B's z score
is below A's, and B's tier rank is indeed not above A's. -/
theorem tier_monotone_in_z_witness :
    driftZ (computeDriftDetection exampleInvoicesB none 1 3) ≤
      driftZ (computeDriftDetection exampleInvoicesA none 1 3) ∧
    tierRank ((computeDriftDetection exampleInvoicesB none 1 3).statistical_significance) ≤
      tierRank ((computeDriftDetection exampleInvoicesA none 1 3).statistical_significance) := by
  have hz : driftZ (computeDriftDetection exampleInvoicesB none 1 3) ≤
      driftZ (computeDriftDetection exampleInvoicesA none 1 3) := by
    rw [driftZ_exampleA, driftZ_exampleB]
    norm_num
  exact ⟨hz, tier_monotone_in_z _ _ _ _ _ _ _ _ hz⟩

/-! ## Attribution confidence and classification -/

/-- C4: for every invoice set, service and candidate deployment
timestamp, the attribution confidence equals
`clamp(temporal_score * 0.6 + min(impact_delta * 5, 0.4), -1, 1)` with
`impact_delta = rateAfter - rateBefore`, and therefore always lies in
`[-1, 1]`. -/
theorem attribution_confidence_clamped (invoices : List Invoice) (service : String)
    (deploymentTs : ℕ) :
    (computeConfidence invoices service deploymentTs).confidence =
      max (-1) (min 1
        ((computeConfidence invoices service deploymentTs).temporalScore * (6 / 10) +
          min (((computeConfidence invoices service deploymentTs).rateAfter -
            (computeConfidence invoices service deploymentTs).rateBefore) * 5) (4 / 10))) ∧
    -1 ≤ (computeConfidence invoices service deploymentTs).confidence ∧
    (computeConfidence invoices service deploymentTs).confidence ≤ 1 := by
  refine ⟨rfl, ?_, ?_⟩
  · exact le_max_left _ _
  · exact max_le (by norm_num) (min_le_left _ _)

/-- C5 (amended): the classification of every attribution result is the
deterministic function of the clamped confidence with break points
0.7 / 0.3 / 0, but the source labels are spelled with spaces
("STRONG CAUSAL LINK", "MODERATE CORRELATION", "WEAK SIGNAL",
"INVERSE CORRELATION"), not with underscores. -/
theorem classification_thresholds :
    (∀ (invoices : List Invoice) (service : String) (deploymentTs : ℕ),
      (computeConfidence invoices service deploymentTs).classification =
        classifyConfidence ((computeConfidence invoices service deploymentTs).confidence)) ∧
    (∀ c : ℚ,
      (7 / 10 ≤ c → classifyConfidence c = "STRONG CAUSAL LINK") ∧
      (3 / 10 ≤ c → c < 7 / 10 → classifyConfidence c = "MODERATE CORRELATION") ∧
      (0 ≤ c → c < 3 / 10 → classifyConfidence c = "WEAK SIGNAL") ∧
      (c < 0 → classifyConfidence c = "INVERSE CORRELATION")) := by
  constructor
  · intro invoices service deploymentTs
    rfl
  · intro c
    refine ⟨fun h1 => ?_, fun h1 h2 => ?_, fun h1 h2 => ?_, fun h1 => ?_⟩ <;>
      unfold classifyConfidence
    · rw [if_pos h1]
    · rw [if_neg (by linarith), if_pos h1]
    · rw [if_neg (by linarith), if_neg (by linarith), if_pos h1]
    · rw [if_neg (by linarith), if_neg (by linarith), if_neg (by linarith)]

/-- Witness for the amended C5: confidence 0.8 is classified
"STRONG CAUSAL LINK". -/
theorem classification_thresholds_witness :
    (7 : ℚ) / 10 ≤ 8 / 10 ∧ classifyConfidence (8 / 10) = "STRONG CAUSAL LINK" :=
  ⟨by norm_num, (classification_thresholds.2 (8 / 10)).1 (by norm_num)⟩

/-- Counterexample for C5 as stated: at confidence 0.8 the produced
label is "STRONG CAUSAL LINK", not the spec's "STRONG_CAUSAL_LINK". -/
theorem classification_label_counterexample :
    classifyConfidence (8 / 10) = "STRONG CAUSAL LINK" ∧
    classifyConfidence (8 / 10) ≠ "STRONG_CAUSAL_LINK" := by
  have h : classifyConfidence (8 / 10) = "STRONG CAUSAL LINK" := by
    unfold classifyConfidence
    rw [if_pos (by norm_num)]
  refine ⟨h, ?_⟩
  rw [h]
  decide

/-! ## Impact projections (C3) and clock dependence (C10) -/

/-- C3 (amended): the orchestrator's Quantify stage (`forecast_loss`)
projects `monthly_projection = observed_loss * 1.4` and
`annualized_risk = observed_loss * 2.4`; the spec's
`avg_daily_loss * 30` and `avg_daily_loss * 365` formulas are instead
those of the `/api/financial-loss` endpoint, whose average daily loss is
`totalLoss / 21`. -/
theorem impact_projection_formulas (totalLoss : ℚ) :
    (forecast_loss totalLoss).monthly_projection = totalLoss * (14 / 10) ∧
    (forecast_loss totalLoss).annualized_risk = totalLoss * (12 / 5) ∧
    financialLossMonthly totalLoss = totalLoss / 21 * 30 ∧
    financialLossAnnualized totalLoss = totalLoss / 21 * 365 := by
  refine ⟨rfl, ?_, rfl, rfl⟩
  unfold forecast_loss
  ring

/-- Counterexample for C3 as stated: at an observed loss of 21 (so an
average daily loss of 1 over the spec's 21-day window), the Quantify
stage's projections are 29.4 and 50.4, not the claimed
`avg_daily_loss * 30 = 30` and `avg_daily_loss * 365 = 365`. -/
theorem forecast_projection_counterexample :
    (forecast_loss 21).observed_loss / 21 * 30 = 30 ∧
    (forecast_loss 21).monthly_projection = 147 / 5 ∧
    (forecast_loss 21).monthly_projection ≠ (forecast_loss 21).observed_loss / 21 * 30 ∧
    (forecast_loss 21).observed_loss / 21 * 365 = 365 ∧
    (forecast_loss 21).annualized_risk = 252 / 5 ∧
    (forecast_loss 21).annualized_risk ≠ (forecast_loss 21).observed_loss / 21 * 365 := by
  norm_num [forecast_loss]

/-- C10 (amended): the analytical content of the agent report is a pure
deterministic function of the input record collections — it does not
depend on the clock instant `now` at all; only the metadata envelope
(id and timestamp) incorporates the clock. -/
theorem analyze_core_clock_free (now1 now2 : ℕ) (invoices : List Invoice)
    (events : List SystemEvent) (transactions : List TransactionRecord)
    (churn : List ChurnRecord) (service : String) :
    (analyzeReport now1 invoices events transactions churn service).core =
      (analyzeReport now2 invoices events transactions churn service).core ∧
    (analyzeReport now1 invoices events transactions churn service).core =
      analyzeCore invoices events transactions churn service :=
  ⟨rfl, rfl⟩

/-- Counterexample for C10 as stated: two invocations over identical
inputs at different clock instants produce different reports (the
`metadata` id and timestamp come from the system clock), so the full
output is not byte-identical across runs. -/
theorem analyze_report_clock_counterexample :
    analyzeReport 0 [] [] [] [] "s" ≠ analyzeReport 1 [] [] [] [] "s" := by
  intro h
  have h2 := congrArg AgentReport.metadata_timestamp h
  simp [analyzeReport] at h2

/-! ## Composite risk score (C2) -/

lemma computeRiskScore_score_eq (invoices : List Invoice) (events : List SystemEvent) :
    (computeRiskScore invoices events).score =
      ((min (anomalyRateOf invoices * 2) 1 : ℚ) : ℝ) * 0.4 +
        ((min (lossFracOf invoices * 10) 1 : ℚ) : ℝ) * 0.35 + recencyOf events * 0.25 := rfl

lemma anomalyRateOf_nonneg (invoices : List Invoice) : 0 ≤ anomalyRateOf invoices := by
  unfold anomalyRateOf
  split
  · exact div_nonneg (Nat.cast_nonneg _) (Nat.cast_nonneg _)
  · exact le_refl 0

lemma anomalyRateOf_le_one (invoices : List Invoice) : anomalyRateOf invoices ≤ 1 := by
  unfold anomalyRateOf
  split
  · rw [div_le_one (by exact_mod_cast ‹0 < invoices.length›)]
    exact_mod_cast List.length_filter_le _ _
  · norm_num

lemma lossFracOf_nonneg (invoices : List Invoice)
    (h : (invoices.map (fun i => i.amountBilled)).sum ≤
      (invoices.map (fun i => i.amountExpected)).sum) :
    0 ≤ lossFracOf invoices := by
  unfold lossFracOf
  split
  · exact div_nonneg (by linarith) (le_of_lt ‹_›)
  · exact le_refl 0

lemma foldl_pickLater_mem (l : List SystemEvent) (acc : Option SystemEvent)
    (x : SystemEvent) (h : l.foldl pickLater acc = some x) :
    acc = some x ∨ x ∈ l := by
  induction l generalizing acc with
  | nil => exact Or.inl h
  | cons y ys ih =>
    rw [List.foldl_cons] at h
    rcases ih _ h with h' | h'
    · cases acc with
      | none =>
        simp only [pickLater, Option.some.injEq] at h'
        exact Or.inr (by simp [h'])
      | some a =>
        by_cases hc : a.timestamp < y.timestamp
        · simp only [pickLater, hc, if_true, Option.some.injEq] at h'
          exact Or.inr (by simp [h'])
        · simp only [pickLater, hc, if_false, Option.some.injEq] at h'
          exact Or.inl (by simp [h'])
    · exact Or.inr (List.mem_cons_of_mem _ h')

lemma latestDeployment_mem (events : List SystemEvent) (e : SystemEvent)
    (h : latestDeployment events = some e) :
    e ∈ events ∧ e.eventType = "deployment" := by
  unfold latestDeployment at h
  rcases foldl_pickLater_mem _ _ _ h with h' | h'
  · cases h'
  · have hm := List.mem_filter.mp h'
    refine ⟨hm.1, ?_⟩
    simpa using hm.2

lemma recencyOf_nonneg (events : List SystemEvent) : 0 ≤ recencyOf events := by
  unfold recencyOf
  split
  · exact (Real.exp_pos _).le
  · exact le_refl 0

lemma recencyOf_le_one (events : List SystemEvent)
    (h : ∀ e ∈ events, e.eventType = "deployment" → e.timestamp ≤ datasetEndSeconds) :
    recencyOf events ≤ 1 := by
  unfold recencyOf
  split
  · rename_i e he
    have hm := latestDeployment_mem events e he
    have hts : e.timestamp ≤ datasetEndSeconds := h e hm.1 hm.2
    unfold computeRecencyFactor
    rw [← Real.exp_zero]
    apply Real.exp_le_exp.mpr
    have hle : (e.timestamp : ℝ) ≤ (datasetEndSeconds : ℝ) := by exact_mod_cast hts
    have h2 : 0 ≤ ((datasetEndSeconds : ℝ) - (e.timestamp : ℝ)) / 86400 :=
      div_nonneg (by linarith) (by norm_num)
    linarith [Real.exp_zero]
  · norm_num

/-- C2 (amended): the composite risk score equals the weighted sum of
the three normalized components, and the weights sum to exactly 1.0;
the score lies in `[0, 1]` provided the invoice set is not overbilled in
aggregate (total billed at most total expected) and no deployment is
dated after the fixed dataset end used by the recency model.  Without
the first proviso the score can be negative
(`risk_score_range_counterexample`). -/
theorem risk_score_formula_and_bounds (invoices : List Invoice)
    (events : List SystemEvent) :
    (computeRiskScore invoices events).score =
      ((computeRiskScore invoices events).anomalyRateNorm : ℝ) *
          (computeRiskScore invoices events).anomalyWeight +
        ((computeRiskScore invoices events).lossNorm : ℝ) *
          (computeRiskScore invoices events).financialWeight +
        (computeRiskScore invoices events).recencyFactor *
          (computeRiskScore invoices events).recencyWeight ∧
    (computeRiskScore invoices events).anomalyWeight +
        (computeRiskScore invoices events).financialWeight +
        (computeRiskScore invoices events).recencyWeight = 1 ∧
    ((invoices.map (fun i => i.amountBilled)).sum ≤
        (invoices.map (fun i => i.amountExpected)).sum →
      (∀ e ∈ events, e.eventType = "deployment" → e.timestamp ≤ datasetEndSeconds) →
      0 ≤ (computeRiskScore invoices events).score ∧
        (computeRiskScore invoices events).score ≤ 1) := by
  refine ⟨rfl, ?_, ?_⟩
  · show (0.4 : ℝ) + 0.35 + 0.25 = 1
    norm_num
  intro hloss hevents
  rw [computeRiskScore_score_eq]
  have hA0 : (0 : ℚ) ≤ min (anomalyRateOf invoices * 2) 1 :=
    le_min (mul_nonneg (anomalyRateOf_nonneg _) (by norm_num)) zero_le_one
  have hA1 : min (anomalyRateOf invoices * 2) 1 ≤ 1 := min_le_right _ _
  have hL0 : (0 : ℚ) ≤ min (lossFracOf invoices * 10) 1 :=
    le_min (mul_nonneg (lossFracOf_nonneg _ hloss) (by norm_num)) zero_le_one
  have hL1 : min (lossFracOf invoices * 10) 1 ≤ 1 := min_le_right _ _
  have hR0 : 0 ≤ recencyOf events := recencyOf_nonneg _
  have hR1 : recencyOf events ≤ 1 := recencyOf_le_one _ hevents
  have hA0R : (0 : ℝ) ≤ ((min (anomalyRateOf invoices * 2) 1 : ℚ) : ℝ) := by exact_mod_cast hA0
  have hA1R : ((min (anomalyRateOf invoices * 2) 1 : ℚ) : ℝ) ≤ 1 := by exact_mod_cast hA1
  have hL0R : (0 : ℝ) ≤ ((min (lossFracOf invoices * 10) 1 : ℚ) : ℝ) := by exact_mod_cast hL0
  have hL1R : ((min (lossFracOf invoices * 10) 1 : ℚ) : ℝ) ≤ 1 := by exact_mod_cast hL1
  constructor
  · nlinarith
  · nlinarith

/-- Witness for the amended C2: a single underbilled invoice and no
events satisfy both provisos, and the score is indeed in `[0, 1]`. -/
theorem risk_score_bounds_witness :
    (([⟨0, "s", 10, 5⟩] : List Invoice).map (fun i => i.amountBilled)).sum ≤
      (([⟨0, "s", 10, 5⟩] : List Invoice).map (fun i => i.amountExpected)).sum ∧
    0 ≤ (computeRiskScore [⟨0, "s", 10, 5⟩] []).score ∧
    (computeRiskScore [⟨0, "s", 10, 5⟩] []).score ≤ 1 := by
  have hl : (([⟨0, "s", 10, 5⟩] : List Invoice).map (fun i => i.amountBilled)).sum ≤
      (([⟨0, "s", 10, 5⟩] : List Invoice).map (fun i => i.amountExpected)).sum := by
    simp
    norm_num
  have hev : ∀ e ∈ ([] : List SystemEvent),
      e.eventType = "deployment" → e.timestamp ≤ datasetEndSeconds := by
    simp
  exact ⟨hl, ((risk_score_formula_and_bounds [⟨0, "s", 10, 5⟩] []).2.2 hl hev).1,
    ((risk_score_formula_and_bounds [⟨0, "s", 10, 5⟩] []).2.2 hl hev).2⟩

/-- Counterexample for C2 as stated: a single overbilled invoice
(expected 100, billed 200) with no deployment events yields a loss ratio
of -1, a loss component of -10, and a composite score of -3.5, outside
`[0, 1]`. -/
theorem risk_score_range_counterexample :
    (computeRiskScore [⟨0, "s", 100, 200⟩] []).score = -(7 / 2) ∧
    (computeRiskScore [⟨0, "s", 100, 200⟩] []).score < 0 := by
  have h1 : anomalyRateOf [⟨0, "s", 100, 200⟩] = 0 := by
    unfold anomalyRateOf
    rw [show ([⟨0, "s", 100, 200⟩] : List Invoice).filter
      (fun i => decide (i.amountBilled < i.amountExpected)) = [] from by decide]
    simp
  have h2 : lossFracOf [⟨0, "s", 100, 200⟩] = -1 := by
    unfold lossFracOf
    simp
    norm_num
  have h3 : recencyOf [] = 0 := rfl
  have hs : (computeRiskScore [⟨0, "s", 100, 200⟩] []).score = -(7 / 2) := by
    rw [computeRiskScore_score_eq, h1, h2, h3]
    norm_num [min_def]
  exact ⟨hs, by rw [hs]; norm_num⟩

/-! ## The Decide stage of the agent orchestration (C1) -/

lemma generate_decision_none (d : DriftResult) :
    generate_decision none d =
      ⟨"ANOMALY_DETECTED_UNCLEAR_CAUSE",
       ["Initiate cross-service telemetry audit", "Monitor transaction success rates"],
       0⟩ := rfl

lemma generate_decision_confirmed (c : Culprit) (d : DriftResult)
    (h : (1 : ℚ) / 2 < c.confidence) :
    generate_decision (some c) d =
      ⟨"CAUSAL_LINK_CONFIRMED",
       ["Roll back " ++ c.version ++ " immediately", "Verify pricing lookup cache"],
       c.confidence⟩ := by
  simp only [generate_decision]
  rw [if_pos h]

lemma generate_decision_weak (c : Culprit) (d : DriftResult)
    (h : ¬ (1 : ℚ) / 2 < c.confidence) :
    generate_decision (some c) d =
      ⟨"ANOMALY_DETECTED_UNCLEAR_CAUSE",
       ["Initiate cross-service telemetry audit", "Monitor transaction success rates"],
       c.confidence⟩ := by
  simp only [generate_decision]
  rw [if_neg h]

lemma analyzeCore_culprit (invoices : List Invoice) (events : List SystemEvent)
    (transactions : List TransactionRecord) (churn : List ChurnRecord) (service : String) :
    (analyzeCore invoices events transactions churn service).culprit =
      culpritOf invoices events service := rfl

lemma analyzeCore_verdict (invoices : List Invoice) (events : List SystemEvent)
    (transactions : List TransactionRecord) (churn : List ChurnRecord) (service : String) :
    (analyzeCore invoices events transactions churn service).verdict =
      (generate_decision (culpritOf invoices events service)
        (computeDriftDetection (invoices.filter (fun i => decide (i.service = service)))
          none baselineEndDefault 3)).verdict := rfl

lemma analyzeCore_confidence (invoices : List Invoice) (events : List SystemEvent)
    (transactions : List TransactionRecord) (churn : List ChurnRecord) (service : String) :
    (analyzeCore invoices events transactions churn service).confidence =
      (generate_decision (culpritOf invoices events service)
        (computeDriftDetection (invoices.filter (fun i => decide (i.service = service)))
          none baselineEndDefault 3)).confidence := rfl

lemma analyzeCore_actions (invoices : List Invoice) (events : List SystemEvent)
    (transactions : List TransactionRecord) (churn : List ChurnRecord) (service : String) :
    (analyzeCore invoices events transactions churn service).recommended_actions =
      (generate_decision (culpritOf invoices events service)
        (computeDriftDetection (invoices.filter (fun i => decide (i.service = service)))
          none baselineEndDefault 3)).recommended_actions := rfl

/-- C1 (amended): in the Decide stage, a culprit with confidence above
0.5 yields verdict `CAUSAL_LINK_CONFIRMED` with the remediation action
list; every other case yields `ANOMALY_DETECTED_UNCLEAR_CAUSE` with the
diagnostic action list, with decision confidence equal to the culprit's
own confidence when a culprit exists and `0` when the culprit is null;
a service without deployment events always has a null culprit.  The
whole pipeline is a total function, so no error is raised in any case. -/
theorem decide_stage_verdict (invoices : List Invoice) (events : List SystemEvent)
    (transactions : List TransactionRecord) (churn : List ChurnRecord) (service : String) :
    ((analyzeCore invoices events transactions churn service).culprit = none →
      (analyzeCore invoices events transactions churn service).verdict =
          "ANOMALY_DETECTED_UNCLEAR_CAUSE" ∧
        (analyzeCore invoices events transactions churn service).confidence = 0 ∧
        (analyzeCore invoices events transactions churn service).recommended_actions =
          ["Initiate cross-service telemetry audit", "Monitor transaction success rates"]) ∧
    (∀ c : Culprit,
      (analyzeCore invoices events transactions churn service).culprit = some c →
      (1 : ℚ) / 2 < c.confidence →
      (analyzeCore invoices events transactions churn service).verdict =
          "CAUSAL_LINK_CONFIRMED" ∧
        (analyzeCore invoices events transactions churn service).recommended_actions =
          ["Roll back " ++ c.version ++ " immediately", "Verify pricing lookup cache"]) ∧
    (∀ c : Culprit,
      (analyzeCore invoices events transactions churn service).culprit = some c →
      ¬ (1 : ℚ) / 2 < c.confidence →
      (analyzeCore invoices events transactions churn service).verdict =
          "ANOMALY_DETECTED_UNCLEAR_CAUSE" ∧
        (analyzeCore invoices events transactions churn service).confidence = c.confidence ∧
        (analyzeCore invoices events transactions churn service).recommended_actions =
          ["Initiate cross-service telemetry audit", "Monitor transaction success rates"]) ∧
    (get_deployment_history service events = [] →
      (analyzeCore invoices events transactions churn service).culprit = none) := by
  refine ⟨?_, ?_, ?_, ?_⟩
  · intro h
    have hc : culpritOf invoices events service = none := h
    refine ⟨?_, ?_, ?_⟩
    · rw [analyzeCore_verdict, hc, generate_decision_none]
    · rw [analyzeCore_confidence, hc, generate_decision_none]
    · rw [analyzeCore_actions, hc, generate_decision_none]
  · intro c h hconf
    have hc : culpritOf invoices events service = some c := h
    refine ⟨?_, ?_⟩
    · rw [analyzeCore_verdict, hc, generate_decision_confirmed _ _ hconf]
    · rw [analyzeCore_actions, hc, generate_decision_confirmed _ _ hconf]
  · intro c h hconf
    have hc : culpritOf invoices events service = some c := h
    refine ⟨?_, ?_, ?_⟩
    · rw [analyzeCore_verdict, hc, generate_decision_weak _ _ hconf]
    · rw [analyzeCore_confidence, hc, generate_decision_weak _ _ hconf]
    · rw [analyzeCore_actions, hc, generate_decision_weak _ _ hconf]
  · intro h
    rw [analyzeCore_culprit]
    unfold culpritOf culpritsOf
    rw [h]
    rfl

/-- Witness for the amended C1: an empty record set (hence no
deployment events) yields a null culprit, verdict
`ANOMALY_DETECTED_UNCLEAR_CAUSE` and confidence 0, with no error. -/
theorem decide_stage_verdict_witness :
    get_deployment_history "x" [] = [] ∧
    (analyzeCore [] [] [] [] "x").culprit = none ∧
    (analyzeCore [] [] [] [] "x").verdict = "ANOMALY_DETECTED_UNCLEAR_CAUSE" ∧
    (analyzeCore [] [] [] [] "x").confidence = 0 := by
  have h := decide_stage_verdict [] [] [] [] "x"
  have hg : get_deployment_history "x" [] = [] := rfl
  have hc := h.2.2.2 hg
  exact ⟨hg, hc, (h.1 hc).1, (h.1 hc).2.1⟩

lemma computeDriftDetection_dailyDrift (invoices : List Invoice)
    (service : Option String) (baselineEnd : ℕ) (driftThreshold : ℚ) :
    (computeDriftDetection invoices service baselineEnd driftThreshold).dailyDrift =
      (daysOf (filterService invoices service)).map (fun d =>
        { date := d
          anomalyRate := dayRate (filterService invoices service) d
          driftFactor :=
            if 0 < mean (baselineRatesOf (filterService invoices service) baselineEnd)
            then dayRate (filterService invoices service) d /
              mean (baselineRatesOf (filterService invoices service) baselineEnd)
            else 0 }) := rfl

lemma agent_filter_service :
    exampleAgentInvoices.filter (fun i => decide (i.service = "s")) =
      exampleAgentInvoices := by decide

lemma daysOf_agent : daysOf exampleAgentInvoices = [0, 1] := by decide

lemma dayRate_agent_0 : dayRate exampleAgentInvoices 0 = 1 / 2 := by
  simp only [dayRate]
  rw [show dayAnomalies exampleAgentInvoices 0 = 1 from by decide,
    show dayTotal exampleAgentInvoices 0 = 2 from by decide]
  norm_num

lemma dayRate_agent_1 : dayRate exampleAgentInvoices 1 = 3 / 5 := by
  simp only [dayRate]
  rw [show dayAnomalies exampleAgentInvoices 1 = 3 from by decide,
    show dayTotal exampleAgentInvoices 1 = 5 from by decide]
  norm_num

lemma baselineRatesOf_agent :
    baselineRatesOf exampleAgentInvoices baselineEndDefault = [1 / 2, 3 / 5] := by
  simp only [baselineRatesOf, baselineEndDefault]
  rw [daysOf_agent]
  simp only [List.filter]
  norm_num [dayRate_agent_0, dayRate_agent_1]

lemma mean_agent_base : mean [(1 : ℚ) / 2, 3 / 5] = 11 / 20 := by
  norm_num [mean]

lemma dailyDrift_agent :
    (computeDriftDetection exampleAgentInvoices none baselineEndDefault 3).dailyDrift =
      [⟨0, 1 / 2, 10 / 11⟩, ⟨1, 3 / 5, 12 / 11⟩] := by
  rw [computeDriftDetection_dailyDrift,
    show filterService exampleAgentInvoices none = exampleAgentInvoices from rfl,
    daysOf_agent, baselineRatesOf_agent, mean_agent_base]
  simp only [List.map]
  rw [dayRate_agent_0, dayRate_agent_1, if_pos (by norm_num : (0 : ℚ) < 11 / 20)]
  norm_num

lemma spikeStart_agent :
    findSpikeStart
      (computeDriftDetection exampleAgentInvoices none baselineEndDefault 3).dailyDrift 2 =
      none := by
  rw [dailyDrift_agent]
  simp only [findSpikeStart, List.find?]
  rw [decide_eq_false (show ¬ ((2 : ℚ) < 10 / 11) by norm_num),
    decide_eq_false (show ¬ ((2 : ℚ) < 12 / 11) by norm_num)]
  rfl

lemma computeConfidence_agent :
    computeConfidence exampleAgentInvoices "s" 86400 =
      ⟨2 / 5, "MODERATE CORRELATION", 0, none, 1 / 2, 3 / 5⟩ := by
  simp only [computeConfidence]
  rw [agent_filter_service, spikeStart_agent]
  rw [show exampleAgentInvoices.filter (fun i => decide (i.timestamp < 86400)) =
      [⟨0, "s", 10, 5⟩, ⟨1, "s", 10, 10⟩] from by decide]
  rw [show exampleAgentInvoices.filter (fun i => decide (86400 ≤ i.timestamp)) =
      [⟨86400, "s", 10, 5⟩, ⟨86401, "s", 10, 5⟩, ⟨86402, "s", 10, 5⟩,
       ⟨86403, "s", 10, 10⟩, ⟨86404, "s", 10, 10⟩] from by decide]
  rw [show ([⟨0, "s", 10, 5⟩, ⟨1, "s", 10, 10⟩] : List Invoice).filter
      (fun i => decide (i.amountBilled < i.amountExpected)) = [⟨0, "s", 10, 5⟩] from by decide]
  rw [show ([⟨86400, "s", 10, 5⟩, ⟨86401, "s", 10, 5⟩, ⟨86402, "s", 10, 5⟩,
      ⟨86403, "s", 10, 10⟩, ⟨86404, "s", 10, 10⟩] : List Invoice).filter
      (fun i => decide (i.amountBilled < i.amountExpected)) =
      [⟨86400, "s", 10, 5⟩, ⟨86401, "s", 10, 5⟩, ⟨86402, "s", 10, 5⟩] from by decide]
  simp only [List.length]
  norm_num [classifyConfidence, min_def, max_def]

lemma culpritOf_agent :
    culpritOf exampleAgentInvoices exampleAgentEvents "s" =
      some ⟨"v1", 86400, 2 / 5, "MODERATE CORRELATION", none⟩ := by
  unfold culpritOf culpritsOf
  rw [show get_deployment_history "s" exampleAgentEvents =
      [⟨86400, "s", "deployment", "v1"⟩] from by decide]
  simp only [List.map]
  rw [computeConfidence_agent]
  rfl

/-- Counterexample for C1 as stated: with a single deployment whose
attribution confidence is 2/5 (not above 0.5), the verdict is
`ANOMALY_DETECTED_UNCLEAR_CAUSE` but the decision confidence is 2/5,
not 0 — `culprit?.confidence || 0` keeps the culprit's confidence. -/
theorem decide_stage_confidence_counterexample :
    (analyzeCore exampleAgentInvoices exampleAgentEvents [] [] "s").verdict =
      "ANOMALY_DETECTED_UNCLEAR_CAUSE" ∧
    (analyzeCore exampleAgentInvoices exampleAgentEvents [] [] "s").confidence = 2 / 5 ∧
    (analyzeCore exampleAgentInvoices exampleAgentEvents [] [] "s").confidence ≠ 0 := by
  have hw : ¬ (1 : ℚ) / 2 <
      (⟨"v1", 86400, 2 / 5, "MODERATE CORRELATION", none⟩ : Culprit).confidence := by
    norm_num
  refine ⟨?_, ?_, ?_⟩
  · rw [analyzeCore_verdict, culpritOf_agent, generate_decision_weak _ _ hw]
  · rw [analyzeCore_confidence, culpritOf_agent, generate_decision_weak _ _ hw]
  · rw [analyzeCore_confidence, culpritOf_agent, generate_decision_weak _ _ hw]
    norm_num

/-! ## Lag search (C8) and pearson self correlation (C9) -/

lemma bestLagAux_spec (xs ys : List ℚ) : ∀ n : ℕ,
    (bestLagAux xs ys n).2 = lagCandidate xs ys (bestLagAux xs ys n).1 ∧
    (bestLagAux xs ys n).1 ≤ n ∧
    (∀ l, l ≤ n → |lagCandidate xs ys l| ≤ |(bestLagAux xs ys n).2|) ∧
    (∀ l, l < (bestLagAux xs ys n).1 → |lagCandidate xs ys l| < |(bestLagAux xs ys n).2|) := by
  intro n
  induction n with
  | zero =>
    refine ⟨rfl, le_refl 0, ?_, ?_⟩
    · intro l hl
      have h0 : l = 0 := Nat.le_zero.mp hl
      subst h0
      exact le_refl _
    · intro l hl
      exact absurd hl (Nat.not_lt_zero l)
  | succ n ih =>
    obtain ⟨ih1, ih2, ih3, ih4⟩ := ih
    by_cases h : |(bestLagAux xs ys n).2| < |laggedPearson xs ys (n + 1)|
    · rw [show bestLagAux xs ys (n + 1) = (n + 1, laggedPearson xs ys (n + 1)) from by
        simp only [bestLagAux]
        rw [if_pos h]]
      refine ⟨rfl, le_refl _, ?_, ?_⟩
      · intro l hl
        rcases Nat.eq_or_lt_of_le hl with rfl | hl'
        · exact le_refl _
        · exact le_of_lt (lt_of_le_of_lt (ih3 l (Nat.lt_succ_iff.mp hl')) h)
      · intro l hl
        exact lt_of_le_of_lt (ih3 l (Nat.lt_succ_iff.mp hl)) h
    · rw [show bestLagAux xs ys (n + 1) = bestLagAux xs ys n from by
        simp only [bestLagAux]
        rw [if_neg h]]
      refine ⟨ih1, ih2.trans (Nat.le_succ n), ?_, ih4⟩
      intro l hl
      rcases Nat.eq_or_lt_of_le hl with rfl | hl'
      · exact not_lt.mp h
      · exact ih3 l (Nat.lt_succ_iff.mp hl')

/-- C8: the lag search returns a lag in `[0, maxLag]` whose correlation
is the candidate at that lag (`pearson` at lag 0, `laggedPearson`
otherwise), with the largest `|r|` among all candidates, ties resolved
in favor of the smaller lag (every strictly smaller lag has strictly
smaller `|r|`), and labels it with the strength bucket of `|r|`
(`≥ 0.7` STRONG, `≥ 0.4` MODERATE, `≥ 0.2` WEAK, else NEGLIGIBLE). -/
theorem best_lag_correlation_spec (xs ys : List ℚ) (maxLag : ℕ) :
    (bestLagCorrelation xs ys maxLag).lag ≤ maxLag ∧
    (bestLagCorrelation xs ys maxLag).r =
      lagCandidate xs ys (bestLagCorrelation xs ys maxLag).lag ∧
    lagCandidate xs ys 0 = pearson xs ys ∧
    (∀ l, l ≤ maxLag →
      |lagCandidate xs ys l| ≤ |(bestLagCorrelation xs ys maxLag).r|) ∧
    (∀ l, l < (bestLagCorrelation xs ys maxLag).lag →
      |lagCandidate xs ys l| < |(bestLagCorrelation xs ys maxLag).r|) ∧
    (bestLagCorrelation xs ys maxLag).strength =
      classifyCorrelation (bestLagCorrelation xs ys maxLag).r ∧
    (∀ r : ℝ,
      (7 / 10 ≤ |r| → classifyCorrelation r = "STRONG") ∧
      (4 / 10 ≤ |r| → |r| < 7 / 10 → classifyCorrelation r = "MODERATE") ∧
      (2 / 10 ≤ |r| → |r| < 4 / 10 → classifyCorrelation r = "WEAK") ∧
      (|r| < 2 / 10 → classifyCorrelation r = "NEGLIGIBLE")) := by
  obtain ⟨h1, h2, h3, h4⟩ := bestLagAux_spec xs ys maxLag
  refine ⟨h2, h1, rfl, h3, h4, rfl, ?_⟩
  intro r
  refine ⟨fun ha => ?_, fun ha hb => ?_, fun ha hb => ?_, fun ha => ?_⟩ <;>
    unfold classifyCorrelation
  · rw [if_pos ha]
  · rw [if_neg (by linarith), if_pos ha]
  · rw [if_neg (by linarith), if_neg (by linarith), if_pos ha]
  · rw [if_neg (by linarith), if_neg (by linarith), if_neg (by linarith)]

/-- Witness for C8: the lag bound at a concrete search, and the STRONG
bucket at `r = 1`. -/
theorem best_lag_correlation_spec_witness :
    (bestLagCorrelation ([] : List ℚ) [] 2).lag ≤ 2 ∧ classifyCorrelation 1 = "STRONG" :=
  ⟨(best_lag_correlation_spec [] [] 2).1,
   ((best_lag_correlation_spec [] [] 2).2.2.2.2.2.2 1).1 (by rw [abs_one]; norm_num)⟩

lemma centeredSums_self (xs : List ℚ) (m : ℚ) :
    centeredSums xs xs m m = (sqSum xs m, sqSum xs m, sqSum xs m) := by
  have key : ∀ (l : List ℚ) (a b c : ℚ),
      (l.zip l).foldl
        (fun acc p =>
          (acc.1 + (p.1 - m) * (p.2 - m),
           acc.2.1 + (p.1 - m) ^ 2,
           acc.2.2 + (p.2 - m) ^ 2)) (a, b, c) =
        (a + sqSum l m, b + sqSum l m, c + sqSum l m) := by
    intro l
    induction l with
    | nil =>
      intro a b c
      simp [sqSum]
    | cons x t ih =>
      intro a b c
      rw [List.zip_cons_cons, List.foldl_cons, ih]
      simp only [sqSum, List.map_cons, List.sum_cons, Prod.mk.injEq]
      refine ⟨by ring, by ring, by ring⟩
  unfold centeredSums
  have h := key xs 0 0 0
  simpa using h

/-- C9 (amended): for every series with at least 3 points and positive
sample standard deviation, the self correlation `pearson(xs, xs)` is
exactly 1.  (With only 2 points the standard deviation can be positive
while `pearson` short-circuits to 0: `pearson_self_counterexample`.) -/
theorem pearson_self_one (xs : List ℚ) (h3 : 3 ≤ xs.length) (hsd : 0 < stddev xs) :
    pearson xs xs = 1 := by
  have hlen2 : ¬ xs.length < 2 := by omega
  have hS : 0 < sqSum xs (mean xs) := by
    unfold stddev at hsd
    rw [if_neg hlen2] at hsd
    have h0 := Real.sqrt_pos.mp hsd
    have hcast : (0 : ℚ) < sqDevSum xs / ((xs.length : ℚ) - 1) := by exact_mod_cast h0
    have hd : (0 : ℚ) < (xs.length : ℚ) - 1 := by
      have hlq : (3 : ℚ) ≤ (xs.length : ℚ) := by exact_mod_cast h3
      linarith
    by_contra hc
    push_neg at hc
    have hnp : sqDevSum xs / ((xs.length : ℚ) - 1) ≤ 0 :=
      div_nonpos_of_nonpos_of_nonneg hc hd.le
    linarith
  simp only [pearson]
  rw [if_neg (by rw [Nat.min_self]; omega)]
  rw [Nat.min_self, List.take_length, centeredSums_self xs (mean xs)]
  have hcast : ((sqSum xs (mean xs) * sqSum xs (mean xs) : ℚ) : ℝ) =
      ((sqSum xs (mean xs) : ℚ) : ℝ) * ((sqSum xs (mean xs) : ℚ) : ℝ) := by
    push_cast
    ring
  have hSR : (0 : ℝ) < ((sqSum xs (mean xs) : ℚ) : ℝ) := by exact_mod_cast hS
  have hsqrt : Real.sqrt ((sqSum xs (mean xs) * sqSum xs (mean xs) : ℚ) : ℝ) =
      ((sqSum xs (mean xs) : ℚ) : ℝ) := by
    rw [hcast, Real.sqrt_mul_self hSR.le]
  rw [hsqrt, if_neg hSR.ne']
  exact div_self hSR.ne'

/-- Counterexample for C9 as stated: the two-point series `[0, 1]` has
positive sample standard deviation, but `pearson` requires at least 3
overlapping points and returns 0, not 1. -/
theorem pearson_self_counterexample :
    0 < stddev [0, 1] ∧ pearson [0, 1] [0, 1] ≠ 1 := by
  constructor
  · unfold stddev
    rw [if_neg (by norm_num)]
    apply Real.sqrt_pos.mpr
    have h : sqDevSum [0, 1] / ((([0, 1] : List ℚ).length : ℚ) - 1) = 1 / 2 := by
      norm_num [sqDevSum, sqSum, mean]
    rw [h]
    norm_num
  · simp only [pearson]
    rw [if_pos (by norm_num)]
    norm_num

/-- Witness for the amended C9 at `[0, 1, 2]`: length 3, positive
standard deviation, and self correlation exactly 1. -/
theorem pearson_self_one_witness :
    3 ≤ ([0, 1, 2] : List ℚ).length ∧ 0 < stddev [0, 1, 2] ∧
      pearson [0, 1, 2] [0, 1, 2] = 1 := by
  have hsd : 0 < stddev [0, 1, 2] := by
    unfold stddev
    rw [if_neg (by norm_num)]
    apply Real.sqrt_pos.mpr
    have h : sqDevSum [0, 1, 2] / ((([0, 1, 2] : List ℚ).length : ℚ) - 1) = 1 := by
      norm_num [sqDevSum, sqSum, mean]
    rw [h]
    norm_num
  exact ⟨by norm_num, hsd, pearson_self_one [0, 1, 2] (by norm_num) hsd⟩
